import Mathlib

/-!
Shallow embedding of the Go-Websocket repository (package websocket).

Bytes are modelled as `Nat` values below 256, byte streams as `List Nat`,
Go `int64` as `Int` (with explicit two's-complement reads where the code
reads binary data), and Go errors as the inductive `WSError`.  Buffered
readers and writers are modelled as exact reads/writes on the stream: a
read of n bytes consumes exactly n bytes when available (all modelled
payloads are far below the 4096-byte bufio buffer, so no intermediate
flush occurs and a missing final flush loses the buffered bytes, exactly
as in the source).
-/

deriving instance DecidableEq for Except

namespace WS

/-- Error values used by the embedded code.  `eof` is io.EOF,
`unexpectedEOF` is io.ErrUnexpectedEOF, `shortWrite` is io.ErrShortWrite,
`malformedFrameHeader` is errMalformedFrameHeader, `malformedSecWSKey` is
errMalformedSecWSKey, `connection code reason` is *errConnection. -/
inductive WSError where
  | eof
  | unexpectedEOF
  | shortWrite
  | malformedFrameHeader
  | malformedSecWSKey
  | malformedClientHandshake
  | connection (code : Nat) (reason : String)
deriving Repr, DecidableEq

/-- Protocol bitmask constants from the source. -/
def finBit : Nat := 0x80
def rsvMask : Nat := 0x70
def opCodeMask : Nat := 0x0F
def opCodeContinuation : Nat := 0x00
def opCodeText : Nat := 0x01
def opCodeBinary : Nat := 0x02
def opCodeControlFrame : Nat := 0x08
def opCodeConnectionClose : Nat := 0x08
def opCodePing : Nat := 0x09
def opCodePong : Nat := 0x0A
def maskBit : Nat := 0x80
def payloadLength7 : Nat := 0x7F

def statusNormalClosure : Nat := 1000
def statusGoingAway : Nat := 1001
def statusProtocolError : Nat := 1002
def statusUnsupportedData : Nat := 1003

/-- The frameHeader struct.  The Go maskingKey is a `[]byte` that may be
nil; `none` models nil. -/
structure frameHeader where
  fin : Bool
  opCode : Nat
  mask : Bool
  payloadLength : Int
  maskingKey : Option (List Nat)
deriving Repr, DecidableEq

/-- Membership in the opCodeDescriptions map. -/
def opCodeKnown (op : Nat) : Bool :=
  op == opCodeContinuation || op == opCodeText || op == opCodeBinary ||
  op == opCodeConnectionClose || op == opCodePing || op == opCodePong

/-- newFrameHeader from the frame-header file: creates and validates a
frame header.  The control-frame test is `opCode & opCodeControlFrame != 0`. -/
def newFrameHeader (fin : Bool) (opCode : Nat) (payloadLength : Int)
    (maskingKey : Option (List Nat)) : Except WSError frameHeader :=
  if !(opCodeKnown opCode) then .error .malformedFrameHeader
  else if (opCode &&& opCodeControlFrame != 0) &&
      (!fin || payloadLength > 125) then .error .malformedFrameHeader
  else if payloadLength < 0 then .error .malformedFrameHeader
  else if maskingKey.isSome && (maskingKey.getD []).length != 4 then
    .error .malformedFrameHeader
  else .ok ⟨fin, opCode, maskingKey.isSome, payloadLength, maskingKey⟩

/-- The other newFrameHeader in the repository (the websocket file in
part_001): identical except that the control-frame test reads
`opCode & opCodeControlFrame != 1`. -/
def newFrameHeaderV1 (fin : Bool) (opCode : Nat) (payloadLength : Int)
    (maskingKey : Option (List Nat)) : Except WSError frameHeader :=
  if !(opCodeKnown opCode) then .error .malformedFrameHeader
  else if (opCode &&& opCodeControlFrame != 1) &&
      (!fin || payloadLength > 125) then .error .malformedFrameHeader
  else if payloadLength < 0 then .error .malformedFrameHeader
  else if maskingKey.isSome && (maskingKey.getD []).length != 4 then
    .error .malformedFrameHeader
  else .ok ⟨fin, opCode, maskingKey.isSome, payloadLength, maskingKey⟩

/-- Big-endian byte encoding of a value in `k` bytes
(binary.BigEndian.PutUint16 / PutUint64). -/
def beBytes : Nat → Nat → List Nat
  | 0, _ => []
  | k + 1, v => (v / 256 ^ k % 256) :: beBytes k v

/-- Big-endian value of a byte list (binary.BigEndian read). -/
def beVal (bs : List Nat) : Nat :=
  bs.foldl (fun a b => a * 256 + b) 0

/-- Two's-complement reading of an unsigned 64-bit value as Go int64. -/
def int64OfBits (v : Nat) : Int :=
  if v < 2 ^ 63 then (v : Int) else (v : Int) - 2 ^ 64

/-- io.ReadFull of `n` bytes from the stream: the bytes and the remaining
stream, or `none` when fewer than `n` bytes are available. -/
def readN (n : Nat) (s : List Nat) : Option (List Nat × List Nat) :=
  if s.length < n then none else some (s.take n, s.drop n)

/-- parseFrameHeader from the frame-header file: reads and parses the
websocket frame header from the stream, returning the header and the
remaining stream.  The inner `if payloadLength < 126` in the 126 branch
tests the variable before it is reassigned from the 2-byte extension,
exactly as the source does. -/
def parseFrameHeader (s : List Nat) : Except WSError (frameHeader × List Nat) :=
  match s with
  | [] => .error .eof
  | [_] => .error .unexpectedEOF
  | b0 :: b1 :: r2 =>
    if rsvMask &&& b0 != 0 then .error .malformedFrameHeader
    else
      let payloadLength : Int := ((b1 &&& payloadLength7 : Nat) : Int)
      let mask : Bool := b1 &&& maskBit != 0
      let step : Except WSError (Int × List Nat) :=
        if payloadLength = 126 then
          match readN 2 r2 with
          | none => .error .unexpectedEOF
          | some (ext, r3) =>
            let len16 : Nat := beVal ext
            if payloadLength < 126 then .error .malformedFrameHeader
            else .ok ((len16 : Int), r3)
        else if payloadLength = 127 then
          match readN 8 r2 with
          | none => .error .unexpectedEOF
          | some (ext, r3) =>
            let v : Int := int64OfBits (beVal ext)
            if v ≤ 65535 then .error .malformedFrameHeader
            else .ok (v, r3)
        else .ok (payloadLength, r2)
      match step with
      | .error e => .error e
      | .ok (plen, r3) =>
        if mask then
          match readN 4 r3 with
          | none => .error .unexpectedEOF
          | some (mk, r4) =>
            match newFrameHeader (b0 &&& finBit != 0) (b0 &&& opCodeMask) plen (some mk) with
            | .error e => .error e
            | .ok fh => .ok (fh, r4)
        else
          match newFrameHeader (b0 &&& finBit != 0) (b0 &&& opCodeMask) plen none with
          | .error e => .error e
          | .ok fh => .ok (fh, r3)

/-- frameHeader.Bytes: serializes the header for server sending (no RSV
bits, no masking key).  Go integer conversions byte(x) and uint16(x) and
uint64(x) are the explicit mod operations below. -/
def frameHeader.Bytes (fh : frameHeader) : List Nat :=
  let b0 := if fh.fin then finBit ||| fh.opCode else fh.opCode
  if fh.payloadLength > 65535 then
    b0 :: 127 :: beBytes 8 (fh.payloadLength % 2 ^ 64).toNat
  else if fh.payloadLength > 125 then
    b0 :: 126 :: beBytes 2 (fh.payloadLength % 2 ^ 16).toNat
  else
    b0 :: [(fh.payloadLength % 2 ^ 8).toNat]

/-- A frame: a header paired with its payload byte source.  The source
list holds the bytes actually available from the underlying stream (it may
be shorter than the declared payload length). -/
structure frameGo where
  header : frameHeader
  payload : List Nat
deriving Repr, DecidableEq

/-- The masked loop of readPayloadTo: reads `remaining` further bytes one
by one from the source, XORing with the rotating key.  On a failed
ReadByte the Go code returns without flushing the buffered writer, so the
bytes written so far are lost ([] is delivered to the sink). -/
def maskedLoop (key : List Nat) : Nat → Nat → List Nat → List Nat →
    Nat × List Nat × Option WSError
  | 0, n, _src, acc => (n, acc, none)
  | _rem + 1, n, [], _acc => (n, [], some .unexpectedEOF)
  | rem + 1, n, c :: src, acc =>
    maskedLoop key rem (n + 1) src (acc ++ [key.getD (n % 4) 0 ^^^ c])

/-- frame.readPayloadTo from the frame file (part_000): returns the count
`n` of payload bytes consumed, the bytes delivered to the sink, and the
error result.  In the unmasked branch the Go code ends with
`err = bw.Flush()`, overwriting the io.CopyN error; an in-memory sink
never fails a flush, so that final error is nil. -/
def readPayloadTo (f : frameGo) : Int × List Nat × Option WSError :=
  if f.header.payloadLength = 0 then (0, [], none)
  else if f.header.mask then
    let (n, w, e) := maskedLoop (f.header.maskingKey.getD [])
      f.header.payloadLength.toNat 0 f.payload []
    ((n : Int), w, e)
  else
    let want := f.header.payloadLength.toNat
    let n := min f.payload.length want
    let copyErr : Option WSError := if n < want then some .eof else none
    let _ := copyErr
    ((n : Int), f.payload.take n, none)

/-- newCloseFrame from the frame file (part_000): builds a close frame for
an errConnection value.  On a newFrameHeader error the Go function returns
a nil frame, modelled by `none` in the header slot. -/
def newCloseFrame (code : Nat) (reason : String) :
    Except WSError (frameHeader × List Nat) :=
  let reasonBytes := reason.data.map Char.toNat
  let payloadLength : Int := 2 + reasonBytes.length
  match newFrameHeader true opCodeConnectionClose payloadLength none with
  | .error e => .error e
  | .ok fh => .ok (fh, beBytes 2 (code % 2 ^ 16) ++ reasonBytes)

/-- A frame sitting in the send channel: the header slot is `none` for a
Go nil frame pointer (enqueued when frame construction failed; the send
loop would panic on it, which no modelled run reaches). -/
structure qFrame where
  headerOpt : Option frameHeader
  payload : List Nat
deriving Repr, DecidableEq

/-- Connection states. -/
def CONNECTING : Nat := 0
def OPEN : Nat := 1
def CLOSING : Nat := 2
def CLOSED : Nat := 3

/-- The Conn struct (part_002), restricted to the fields the receive
router, closer and destroyer read or write, plus observable effects:
`inCount` counts the message readers pushed onto the In channel,
`sendQ`/`sendClosed` model the send channel, `tcpClosed` records
conn.Close(). -/
structure ConnSt where
  expectingContFrame : Bool
  currWriter : Option Nat
  state : Nat
  closeSent : Bool
  closeRecieved : Bool
  cleanly : Bool
  server : Bool
  inClosed : Bool
  inCount : Nat
  sendQ : List qFrame
  sendClosed : Bool
  tcpClosed : Bool
deriving Repr, DecidableEq

/-- newConn: the fresh server connection published by ServeHTTP. -/
def newConn : ConnSt :=
  ⟨false, none, OPEN, false, false, false, true, false, 0, [], false, false⟩

/-- Conn.mask: no masking in server role. -/
def connMask : Option (List Nat) := none

/-- Reads a frame payload out of the connection stream: readPayloadTo on
a frame whose payload source is the stream itself; the stream advances by
the number of bytes consumed. -/
def readPayloadStream (fh : frameHeader) (s : List Nat) :
    Int × List Nat × Option WSError × List Nat :=
  let (n, w, e) := readPayloadTo ⟨fh, s⟩
  (n, w, e, s.drop n.toNat)

/-- Conn.closing: closes the In channel and fails any in-progress inbound
message. -/
def closing (c : ConnSt) : ConnSt :=
  { c with state := CLOSING, inClosed := true, currWriter := none }

/-- Conn.destroy: closes the TCP connection and sets the clean flag; a
no-op unless the closing handshake completed or clean is false.  The
client-role SetDeadline branch is not modelled (server is always true in
the modelled runs). -/
def destroy (c : ConnSt) (clean : Bool) : ConnSt :=
  if (c.closeRecieved && c.closeSent) || !clean then
    { c with state := CLOSED, cleanly := clean,
             tcpClosed := if c.server || !clean then true else c.tcpClosed }
  else c

/-- Conn.sendClose: initiates the closing handshake by enqueuing a close
frame and closing the send channel. -/
def sendClose (c : ConnSt) (code : Nat) (reason : String) : ConnSt :=
  if c.closeSent then c
  else
    let c := closing c
    let qf : qFrame :=
      match newCloseFrame code reason with
      | .error _ => ⟨none, []⟩
      | .ok (fh, p) => ⟨some fh, p⟩
    { c with sendQ := c.sendQ ++ [qf], sendClosed := true, closeSent := true }

/-- Conn.processPing: copies the payload and enqueues a pong frame with
the identical (unmasked) payload.  The Go code discards the newFrameHeader
error with `pongFrameHeader, _ :=`. -/
def processPing (c : ConnSt) (fh : frameHeader) (s : List Nat) :
    ConnSt × Option WSError × List Nat :=
  let (_n, w, e, rest) := readPayloadStream fh s
  match e with
  | some e => (c, some e, rest)
  | none =>
    let pongFh := (newFrameHeader true opCodePong fh.payloadLength connMask).toOption
    ({ c with sendQ := c.sendQ ++ [⟨pongFh, w⟩] }, none, rest)

/-- Conn.processPong: drains and discards the payload. -/
def processPong (c : ConnSt) (fh : frameHeader) (s : List Nat) :
    ConnSt × Option WSError × List Nat :=
  let (_n, _w, e, rest) := readPayloadStream fh s
  (c, e, rest)

/-- Conn.processText: handles a text or binary frame.  The guard reads
c.expectingContFrame, a field no code in the repository ever assigns. -/
def processText (c : ConnSt) (fh : frameHeader) (s : List Nat) :
    ConnSt × Option WSError × List Nat :=
  if c.expectingContFrame then
    (c, some (.connection statusProtocolError
      "Received unexpected data frame (expecting continuation frame)"), s)
  else
    let pipeId := c.inCount
    let c := { c with inCount := c.inCount + 1 }
    let (_n, _w, e, rest) := readPayloadStream fh s
    if e = some .unexpectedEOF then (c, some .unexpectedEOF, rest)
    else if fh.fin then (c, e, rest)
    else ({ c with currWriter := some pipeId }, e, rest)

/-- Conn.processContinuation: streams a continuation frame into the
current message writer. -/
def processContinuation (c : ConnSt) (fh : frameHeader) (s : List Nat) :
    ConnSt × Option WSError × List Nat :=
  if c.currWriter = none then
    (c, some (.connection statusProtocolError
      "Recieved unexpected continuation frame"), s)
  else
    let (_n, _w, e, rest) := readPayloadStream fh s
    if e = some .unexpectedEOF then
      (c, some (.connection statusProtocolError
        "The other end-point closed the TCP connection"), rest)
    else if fh.fin then ({ c with currWriter := none }, e, rest)
    else (c, e, rest)

/-- Conn.processConnectionClose: drains the peer close frame and either
completes the handshake or replies with the server close frame. -/
def processConnectionClose (c : ConnSt) (fh : frameHeader) (s : List Nat) :
    ConnSt × Option WSError × List Nat :=
  let c := { c with state := CLOSING }
  let (_n, _w, e, rest) := readPayloadStream fh s
  if c.closeSent then (destroy c true, e, rest)
  else if e ≠ none then
    (sendClose c statusProtocolError "Connection closed before close frame was sent", e, rest)
  else
    (sendClose c statusNormalClosure "", e, rest)

/-- Conn.router (part_002): reads frames off the stream until a close
frame has been received or an error occurs.  The fuel argument only
bounds the recursion; every modelled run consumes at least two stream
bytes per iteration, so fuel `s.length + 1` never runs out. -/
def routerGo : Nat → ConnSt → List Nat → ConnSt × Option WSError × List Nat
  | 0, c, s => (c, none, s)
  | fuel + 1, c, s =>
    if c.closeRecieved then (c, none, s)
    else
      match parseFrameHeader s with
      | .error e => (c, some e, s)
      | .ok (fh, rest) =>
        if c.closeSent && fh.opCode != opCodeConnectionClose then
          let (_n, _w, e, r2) := readPayloadStream fh rest
          match e with
          | some e => (c, some e, r2)
          | none => routerGo fuel c r2
        else
          let (c2, e, r2) :=
            if fh.opCode = opCodePing then processPing c fh rest
            else if fh.opCode = opCodePong then processPong c fh rest
            else if fh.opCode = opCodeConnectionClose then
              processConnectionClose { c with closeRecieved := true } fh rest
            else if fh.opCode = opCodeBinary ∨ fh.opCode = opCodeText then
              processText c fh rest
            else if fh.opCode = opCodeContinuation then
              processContinuation c fh rest
            else (c, none, rest)
          match e with
          | some e => (c2, some e, r2)
          | none => routerGo fuel c2 r2

/-- Conn.start (part_002): runs the router; on a router error the
connection is closed and destroyed uncleanly. -/
def startRun (c : ConnSt) (input : List Nat) : ConnSt :=
  let (c1, err, _rest) := routerGo (input.length + 1) c input
  match err with
  | some _ => destroy (closing c1) false
  | none => c1

/-- The wire bytes the send loop produces for one queued frame: header
bytes then exactly payloadLength payload bytes.  A nil frame (`none`
header) would make the Go send loop panic; no modelled run enqueues one. -/
def qFrameBytes (f : qFrame) : List Nat :=
  match f.headerOpt with
  | none => []
  | some h =>
    h.Bytes ++ (if h.payloadLength > 0 then f.payload.take h.payloadLength.toNat else [])

/-- All bytes the send loop writes to the socket for the queued frames,
in FIFO order. -/
def connWrittenBytes (c : ConnSt) : List Nat :=
  (c.sendQ.map qFrameBytes).flatten

/-- A full connection run: the router runs over the inbound stream (with
the start error path), then the send loop, having drained its closed
channel, calls destroy(true). -/
def connRun (c : ConnSt) (input : List Nat) : ConnSt :=
  let cr := startRun c input
  if cr.sendClosed then destroy cr true else cr

/-! Handshake: base64 (encoding/base64 StdEncoding), SHA-1 (crypto/sha1)
and the Sec-WebSocket-Key validator. -/

def guid : String := "258EAFA5-E914-47DA-95CA-C5AB0DC85B11"
def secWSKeyLength : Nat := 16
def secWSVersion : Nat := 13
def minProtoMajor : Nat := 1
def minProtoMinor : Nat := 1

/-- Go []byte(s) for the ASCII strings appearing in the handshake. -/
def strBytes (s : String) : List Nat := s.data.map Char.toNat

/-- The StdEncoding alphabet index of a character, `none` for characters
outside the alphabet (including the padding character). -/
def b64Index (c : Char) : Option Nat :=
  if 'A' ≤ c ∧ c ≤ 'Z' then some (c.toNat - 'A'.toNat)
  else if 'a' ≤ c ∧ c ≤ 'z' then some (c.toNat - 'a'.toNat + 26)
  else if '0' ≤ c ∧ c ≤ '9' then some (c.toNat - '0'.toNat + 52)
  else if c = '+' then some 62
  else if c = '/' then some 63
  else none

/-- The bytes produced from the data characters of one base64 quantum
(dlen 2, 3 or 4 sextets). -/
def b64QuantumBytes (d : List Nat) : List Nat :=
  match d with
  | [a, b] => [(a <<< 2 ||| b >>> 4) % 256]
  | [a, b, c] => [(a <<< 2 ||| b >>> 4) % 256, (b <<< 4 ||| c >>> 2) % 256]
  | [a, b, c, e] =>
    [(a <<< 2 ||| b >>> 4) % 256, (b <<< 4 ||| c >>> 2) % 256, (c <<< 6 ||| e) % 256]
  | _ => []

/-- Result of decoding one quantum, following base64.decodeQuantum:
`full` is four data characters; `padded` is a correctly padded final
quantum whose bytes are still written, with a flag for trailing garbage
after the padding (a CorruptInputError that does not discard the bytes);
`bad` is an invalid character or an incomplete quantum (no bytes
written). -/
inductive QRes where
  | full (d : List Nat) (rest : List Char)
  | padded (bytes : List Nat) (trailing : Bool)
  | bad
deriving Repr, DecidableEq

/-- Decode one quantum from the character stream.  Newline skipping is
not modelled (no modelled input contains a CR or LF). -/
def b64Quantum (cs : List Char) : QRes :=
  match cs with
  | c0 :: c1 :: c2 :: c3 :: rest =>
    match b64Index c0, b64Index c1 with
    | some i0, some i1 =>
      (match b64Index c2, b64Index c3 with
       | some i2, some i3 => .full [i0, i1, i2, i3] rest
       | some i2, none =>
         if c3 = '=' then .padded (b64QuantumBytes [i0, i1, i2]) (rest ≠ [])
         else .bad
       | none, _ =>
         if c2 = '=' ∧ c3 = '=' then .padded (b64QuantumBytes [i0, i1]) (rest ≠ [])
         else .bad)
    | _, _ => .bad
  | _ :: _ => .bad
  | [] => .full [] []

/-- The decode loop of base64 Decode: bytes decoded so far are returned
even when the error flag (second component, false = CorruptInputError)
is set, matching the Go (n, err) pair. -/
def b64DecodeLoop : Nat → List Char → List Nat → List Nat × Bool
  | 0, _, acc => (acc, false)
  | _fuel + 1, [], acc => (acc, true)
  | fuel + 1, cs, acc =>
    match b64Quantum cs with
    | .full d rest => b64DecodeLoop fuel rest (acc ++ b64QuantumBytes d)
    | .padded bytes trailing => (acc ++ bytes, !trailing)
    | .bad => (acc, false)

/-- base64.StdEncoding.DecodeString: the decoded bytes (a prefix on
error) and whether decoding succeeded. -/
def b64DecodeGo (s : String) : List Nat × Bool :=
  b64DecodeLoop (s.data.length + 1) s.data []

/-- The StdEncoding alphabet. -/
def b64Alphabet : String :=
  "ABCDEFGHIJKLMNOPQRSTUVWXYZabcdefghijklmnopqrstuvwxyz0123456789+/"

def b64Char (n : Nat) : Char := b64Alphabet.data.getD n '?'

/-- base64.StdEncoding.EncodeToString. -/
def b64Encode : List Nat → List Char
  | a :: b :: c :: rest =>
    b64Char (a >>> 2) :: b64Char ((a % 4) <<< 4 ||| b >>> 4) ::
    b64Char ((b % 16) <<< 2 ||| c >>> 6) :: b64Char (c % 64) :: b64Encode rest
  | [a, b] =>
    [b64Char (a >>> 2), b64Char ((a % 4) <<< 4 ||| b >>> 4),
     b64Char ((b % 16) <<< 2), '=']
  | [a] =>
    [b64Char (a >>> 2), b64Char ((a % 4) <<< 4), '=', '=']
  | [] => []

def b64EncodeStr (bs : List Nat) : String := String.mk (b64Encode bs)

/-- 32-bit truncation. -/
def w32 (n : Nat) : Nat := n % 4294967296

/-- 32-bit left rotation. -/
def rotl32 (k x : Nat) : Nat := w32 (x <<< k) ||| (x >>> (32 - k))

/-- SHA-1 message padding: 0x80, zeros, then the 64-bit bit length. -/
def sha1Pad (msg : List Nat) : List Nat :=
  let l := msg.length
  let zeros := (119 - l % 64) % 64
  msg ++ [0x80] ++ List.replicate zeros 0 ++ beBytes 8 (8 * l % 2 ^ 64)

/-- The 16 initial 32-bit words of a 64-byte block. -/
def sha1Words (block : List Nat) : List Nat :=
  (List.range 16).map (fun i => beVal ((block.drop (4 * i)).take 4))

/-- Message-schedule extension from 16 to 80 words. -/
def sha1Extend (ws : Array Nat) : Array Nat :=
  (List.range 64).foldl
    (fun a i =>
      a.push (rotl32 1 (a.getD (i + 13) 0 ^^^ a.getD (i + 8) 0 ^^^
        a.getD (i + 2) 0 ^^^ a.getD i 0)))
    ws

def sha1F (i b c d : Nat) : Nat :=
  if i < 20 then (b &&& c) ||| ((b ^^^ 4294967295) &&& d)
  else if i < 40 then b ^^^ c ^^^ d
  else if i < 60 then (b &&& c) ||| (b &&& d) ||| (c &&& d)
  else b ^^^ c ^^^ d

def sha1K (i : Nat) : Nat :=
  if i < 20 then 0x5A827999
  else if i < 40 then 0x6ED9EBA1
  else if i < 60 then 0x8F1BBCDC
  else 0xCA62C1D6

/-- One SHA-1 compression round. -/
def sha1Round (st : Nat × Nat × Nat × Nat × Nat) (iw : Nat × Nat) :
    Nat × Nat × Nat × Nat × Nat :=
  let (a, b, c, d, e) := st
  let (i, w) := iw
  let temp := w32 (rotl32 5 a + sha1F i b c d + e + sha1K i + w)
  (temp, a, rotl32 30 b, c, d)

/-- SHA-1 compression of one 64-byte block into the running state. -/
def sha1Block (h : Nat × Nat × Nat × Nat × Nat) (block : List Nat) :
    Nat × Nat × Nat × Nat × Nat :=
  let ws := sha1Extend ⟨sha1Words block⟩
  let (h0, h1, h2, h3, h4) := h
  let (a, b, c, d, e) :=
    ((List.range 80).zip ws.toList).foldl sha1Round (h0, h1, h2, h3, h4)
  (w32 (h0 + a), w32 (h1 + b), w32 (h2 + c), w32 (h3 + d), w32 (h4 + e))

def sha1Chunks : Nat → List Nat → List (List Nat)
  | 0, _ => []
  | _fuel + 1, [] => []
  | fuel + 1, bs => bs.take 64 :: sha1Chunks fuel (bs.drop 64)

/-- crypto/sha1 digest of a byte list, as 20 bytes. -/
def sha1Bytes (msg : List Nat) : List Nat :=
  let padded := sha1Pad msg
  let (h0, h1, h2, h3, h4) :=
    (sha1Chunks (padded.length + 1) padded).foldl sha1Block
      (0x67452301, 0xEFCDAB89, 0x98BADCFE, 0x10325476, 0xC3D2E1F0)
  beBytes 4 h0 ++ beBytes 4 h1 ++ beBytes 4 h2 ++ beBytes 4 h3 ++ beBytes 4 h4

/-- validateSecWebSocketKey: the Go code discards the DecodeString error
(`decodedKey, _ :=`) and instead tests the named return `err`, still nil
at that point; `decodeErrSlot` below is that named return. -/
def validateSecWebSocketKey (key : String) : Except WSError String :=
  let decodedKey := (b64DecodeGo key).1
  let decodeErrSlot : Option WSError := none
  if decodeErrSlot ≠ none ∨ decodedKey.length ≠ secWSKeyLength then
    .error .malformedSecWSKey
  else
    .ok (b64EncodeStr (sha1Bytes (strBytes key ++ strBytes guid)))

/-! The HTTP upgrade path: wsClientHandshake and Handler.ServeHTTP
(part_002). -/

/-- The request fields the handshake reads (http.Request). -/
structure Request where
  protoMajor : Nat
  protoMinor : Nat
  upgrade : String
  connection : String
  secWSVersionHdr : String
  secWSKeyHdr : String
deriving Repr, DecidableEq

/-- http.Request.ProtoAtLeast. -/
def protoAtLeast (r : Request) (major minor : Nat) : Bool :=
  major < r.protoMajor || (r.protoMajor == major && minor ≤ r.protoMinor)

/-- ASCII lower-casing; strings.EqualFold restricted to ASCII, which
covers every header token the code compares. -/
def asciiLower (c : Char) : Char :=
  if 'A' ≤ c ∧ c ≤ 'Z' then Char.ofNat (c.toNat + 32) else c

def equalFold (s t : String) : Bool :=
  s.data.map asciiLower == t.data.map asciiLower

/-- strings.TrimSpace restricted to ASCII whitespace. -/
def isSpaceByte (c : Char) : Bool :=
  c = ' ' ∨ c = '\t' ∨ c = '\n' ∨ c = '\r'

def trimSpace (s : String) : String :=
  String.mk (((s.data.dropWhile isSpaceByte).reverse.dropWhile isSpaceByte).reverse)

/-- strconv.Atoi restricted to the unsigned decimal numerals the version
header carries: all-digit and nonempty, else an error. -/
def atoi (s : String) : Option Nat :=
  if s.data ≠ [] ∧ s.data.all (fun c => '0' ≤ c ∧ c ≤ '9') then
    some (s.data.foldl (fun a c => a * 10 + (c.toNat - '0'.toNat)) 0)
  else none

/-- wsClientHandshake: the four checks in order, then the accept-token
computation. -/
def wsClientHandshake (r : Request) : Except WSError String :=
  if !(protoAtLeast r minProtoMajor minProtoMinor) then
    .error .malformedClientHandshake
  else if !(equalFold r.upgrade "websocket" && equalFold r.connection "Upgrade") then
    .error .malformedClientHandshake
  else if !(match atoi r.secWSVersionHdr with
            | some v => v == secWSVersion
            | none => false) then
    .error .malformedClientHandshake
  else
    validateSecWebSocketKey (trimSpace r.secWSKeyHdr)

/-- The observable outcome of Handler.ServeHTTP: the HTTP response pieces
and what happens to the hijacked connection.  Both branches of the Go
code fall through to hijacking, writing the trailing CRLF, constructing
the Conn, publishing it on h.Conns and starting its tasks. -/
structure ServeOutcome where
  status : Nat
  versionHeaderSet : Bool
  upgradeHeadersSet : Bool
  secWSAccept : Option String
  crlfWritten : Bool
  connCreated : Bool
  connPublished : Bool
  connStarted : Bool
  conn : ConnSt
deriving Repr, DecidableEq

/-- Handler.ServeHTTP (part_002 lines 82-110). -/
def serveHTTP (r : Request) : ServeOutcome :=
  match wsClientHandshake r with
  | .error _ =>
    ⟨400, true, false, none, true, true, true, true, newConn⟩
  | .ok secWSAccept =>
    ⟨101, false, true, some secWSAccept, true, true, true, true, newConn⟩

/-! Theorems. -/

set_option maxRecDepth 400000

theorem beBytes_length (k v : Nat) : (beBytes k v).length = k := by
  induction k generalizing v with
  | zero => rfl
  | succ k ih => simp [beBytes, ih]

theorem beVal_foldl (k v a : Nat) :
    List.foldl (fun x b => x * 256 + b) a (beBytes k v) =
      a * 256 ^ k + v % 256 ^ k := by
  induction k generalizing a with
  | zero => simp [beBytes, Nat.mod_one]
  | succ k ih =>
    simp only [beBytes, List.foldl]
    rw [ih, Nat.pow_succ, Nat.mod_mul]
    ring

theorem beVal_beBytes (k v : Nat) (h : v < 256 ^ k) :
    beVal (beBytes k v) = v := by
  unfold beVal
  rw [beVal_foldl]
  simp [Nat.mod_eq_of_lt h]

theorem readN_exact (k : Nat) (l : List Nat) (h : l.length = k) :
    readN k l = some (l, []) := by
  subst h
  simp [readN, List.take_length, List.drop_length]

theorem and127_of_le (t : Nat) (h : t ≤ 127) : t &&& 127 = t := by
  have h7 : (127 : Nat) = 2 ^ 7 - 1 := rfl
  rw [h7, Nat.and_pow_two_sub_one_eq_mod]
  omega

theorem and128_of_lt (t : Nat) (h : t < 128) : t &&& 128 = 0 := by
  have h7 : (128 : Nat) = 2 ^ 7 := rfl
  rw [h7, Nat.and_two_pow]
  have hb : t.testBit 7 = false := Nat.testBit_lt_two_pow (by omega)
  simp [hb]

theorem b0_facts (fin : Bool) (op : Nat) (hop : op < 16) :
    112 &&& (if fin then 128 ||| op else op) = 0 ∧
    ((if fin then 128 ||| op else op) &&& 128 != 0) = fin ∧
    (if fin then 128 ||| op else op) &&& 15 = op := by
  interval_cases op <;> cases fin <;> decide

theorem parse_small (b0 t : Nat) (fh : frameHeader)
    (h112 : 112 &&& b0 = 0) (ht : t ≤ 125)
    (hok : newFrameHeader (b0 &&& 128 != 0) (b0 &&& 15) (t : Int) none = .ok fh) :
    parseFrameHeader [b0, t] = .ok (fh, []) := by
  have h127 : t &&& 127 = t := and127_of_le t (by omega)
  have h128 : t &&& 128 = 0 := and128_of_lt t (by omega)
  have hne126 : ¬ ((t : Int) = 126) := by omega
  have hne127 : ¬ ((t : Int) = 127) := by omega
  unfold parseFrameHeader
  simp only [rsvMask, payloadLength7, maskBit, finBit, opCodeMask]
  rw [h112]
  simp only [h127, h128]
  simp [hne126, hne127, hok]

theorem parse_len126 (b0 t : Nat) (fh : frameHeader)
    (h112 : 112 &&& b0 = 0) (h1 : 126 ≤ t) (h2 : t ≤ 65535)
    (hok : newFrameHeader (b0 &&& 128 != 0) (b0 &&& 15) (t : Int) none = .ok fh) :
    parseFrameHeader (b0 :: 126 :: beBytes 2 t) = .ok (fh, []) := by
  unfold parseFrameHeader
  simp only [rsvMask, payloadLength7, maskBit, finBit, opCodeMask]
  rw [h112]
  have e1 : (126 &&& 127 : Nat) = 126 := rfl
  have e2 : (126 &&& 128 : Nat) = 0 := rfl
  simp [readN_exact 2 (beBytes 2 t) (beBytes_length 2 t),
    beVal_beBytes 2 t (by omega), e1, e2, hok]

theorem parse_len127 (b0 t : Nat) (fh : frameHeader)
    (h112 : 112 &&& b0 = 0) (h1 : 65535 < t) (h2 : t < 2 ^ 63)
    (hok : newFrameHeader (b0 &&& 128 != 0) (b0 &&& 15) (t : Int) none = .ok fh) :
    parseFrameHeader (b0 :: 127 :: beBytes 8 t) = .ok (fh, []) := by
  unfold parseFrameHeader
  simp only [rsvMask, payloadLength7, maskBit, finBit, opCodeMask]
  rw [h112]
  have e1 : (127 &&& 127 : Nat) = 127 := rfl
  have e2 : (127 &&& 128 : Nat) = 0 := rfl
  have h64 : t < 256 ^ 8 := by
    have hp : (256 : Nat) ^ 8 = 2 ^ 64 := by norm_num
    have hq : (2 : Nat) ^ 63 < 2 ^ 64 := by norm_num
    omega
  have h2' : t < 9223372036854775808 := by omega
  have hint : int64OfBits t = (t : Int) := by
    simp [int64OfBits, h2']
  have hle : ¬ ((t : Int) ≤ 65535) := by omega
  simp [readN_exact 8 (beBytes 8 t) (beBytes_length 8 t),
    beVal_beBytes 8 t h64, e1, e2, hint, hle, hok]

/-- C1: for every header accepted by newFrameHeader with a nil masking
key (server role, mask false), serializing with Bytes and re-parsing with
parseFrameHeader succeeds and returns the identical header, consuming the
whole encoding.  The bound on the payload length is the Go int64 range of
the payloadLength parameter. -/
theorem parse_serialize_roundtrip (fin : Bool) (op : Nat) (len : Int)
    (fh : frameHeader) (h63 : len < 2 ^ 63)
    (hok : newFrameHeader fin op len none = .ok fh) :
    parseFrameHeader fh.Bytes = .ok (fh, []) := by
  have hknown : opCodeKnown op = true := by
    by_contra h
    rw [Bool.not_eq_true] at h
    unfold newFrameHeader at hok
    simp [h] at hok
  have hlen0 : 0 ≤ len := by
    by_contra h
    push_neg at h
    unfold newFrameHeader at hok
    simp [hknown, h] at hok
  have hfh : fh = ⟨fin, op, false, len, none⟩ := by
    have hok' := hok
    unfold newFrameHeader at hok'
    split at hok'
    · simp at hok'
    · split at hok'
      · simp at hok'
      · split at hok'
        · simp at hok'
        · split at hok'
          · simp at hok'
          · simpa using (Except.ok.inj hok').symm
  have hop16 : op < 16 := by
    simp [opCodeKnown, opCodeContinuation, opCodeText, opCodeBinary,
      opCodeConnectionClose, opCodePing, opCodePong] at hknown
    rcases hknown with h | h | h | h | h | h <;> omega
  obtain ⟨hB0, hB1, hB2⟩ := b0_facts fin op hop16
  subst hfh
  have hcast : ∀ u : Nat, (u : Int) = len → newFrameHeader
      ((if fin then 128 ||| op else op) &&& 128 != 0)
      ((if fin then 128 ||| op else op) &&& 15) (u : Int) none =
      .ok ⟨fin, op, false, len, none⟩ := by
    intro u hu
    rw [hB1, hB2, hu]
    exact hok
  unfold frameHeader.Bytes
  dsimp only
  simp only [finBit]
  by_cases hA : len > 65535
  · rw [if_pos hA]
    have hm : len % 2 ^ 64 = len := by omega
    rw [hm]
    exact parse_len127 _ len.toNat _ hB0 (by omega) (by omega) (hcast _ (by omega))
  · rw [if_neg hA]
    by_cases hB : len > 125
    · rw [if_pos hB]
      have hm : len % 2 ^ 16 = len := by omega
      rw [hm]
      exact parse_len126 _ len.toNat _ hB0 (by omega) (by omega) (hcast _ (by omega))
    · rw [if_neg hB]
      have hm : len % 2 ^ 8 = len := by omega
      rw [hm]
      exact parse_small _ len.toNat _ hB0 (by omega) (hcast _ (by omega))

/-- C1 witness: the round-trip at a non-final text header of length 300
(the 2-byte extended-length encoding). -/
theorem parse_serialize_roundtrip_witness :
    parseFrameHeader (frameHeader.Bytes ⟨false, opCodeText, false, 300, none⟩) =
      .ok (⟨false, opCodeText, false, 300, none⟩, []) :=
  parse_serialize_roundtrip false opCodeText 300
    ⟨false, opCodeText, false, 300, none⟩ (by norm_num) (by decide)

/-- C2: the claim says parseFrameHeader rejects every non-minimal
payload-length encoding.  The 127 branch does (second conjunct), but the
126 branch's minimality check compares the stale 7-bit value, so the
non-minimally encoded frame 81 7E 00 05 (length field 126, extended
length 5) is accepted with payloadLength 5 instead of returning
MalformedFrameHeader. -/
theorem parse_nonminimal_len126_accepted :
    parseFrameHeader [0x81, 0x7E, 0x00, 0x05] =
      .ok (⟨true, opCodeText, false, 5, none⟩, []) ∧
    parseFrameHeader [0x81, 0x7F, 0, 0, 0, 0, 0, 0, 0xFF, 0xFF] =
      .error .malformedFrameHeader :=
  ⟨rfl, rfl⟩

/-- C3: the claim says a new text or binary frame arriving while a
fragmented message is in progress makes the router fail with a 1002
ProtocolError.  The guard tests expectingContFrame, which no code ever
sets, so on the stream text(fin=0,"Hel") then text(fin=1,"lo") the router
starts a second inbound message (inCount 2) while the first writer is
still current, and the run ends with the end-of-stream error, not a
ProtocolError. -/
theorem router_data_frame_mid_fragmentation :
    routerGo 10 newConn [0x01, 0x03, 0x48, 0x65, 0x6C, 0x81, 0x02, 0x6C, 0x6F] =
      (⟨false, some 0, OPEN, false, false, false, true, false, 2, [], false, false⟩,
       some .eof, []) :=
  rfl

/-- C4 counterexample: on the lone continuation frame 80 00 the claimed
close(1002) frame is never sent — the send queue stays empty, nothing is
written to the socket and closeSent stays false, even though the run does
end CLOSED and unclean. -/
theorem continuation_no_close_frame_sent :
    (connRun newConn [0x80, 0x00]).sendQ = [] ∧
    connWrittenBytes (connRun newConn [0x80, 0x00]) = [] ∧
    (connRun newConn [0x80, 0x00]).closeSent = false ∧
    (connRun newConn [0x80, 0x00]).state = CLOSED ∧
    (connRun newConn [0x80, 0x00]).cleanly = false :=
  ⟨rfl, rfl, rfl, rfl, rfl⟩

/-- C4 amended: a continuation frame received while currWriter is null
terminates the connection uncleanly — State CLOSED, Cleanly false, TCP
closed — but without sending any close frame (closeSent stays false and
the send queue stays empty). -/
theorem continuation_without_writer_unclean (input rest : List Nat)
    (fh : frameHeader) (hp : parseFrameHeader input = .ok (fh, rest))
    (hop : fh.opCode = opCodeContinuation) :
    (connRun newConn input).state = CLOSED ∧
    (connRun newConn input).cleanly = false ∧
    (connRun newConn input).tcpClosed = true ∧
    (connRun newConn input).closeSent = false ∧
    (connRun newConn input).sendQ = [] := by
  have hrouter : routerGo (input.length + 1) newConn input =
      (newConn, some (.connection statusProtocolError
        "Recieved unexpected continuation frame"), rest) := by
    rw [routerGo, hp]
    simp [newConn, hop, processContinuation, opCodeContinuation, opCodePing,
      opCodePong, opCodeConnectionClose, opCodeBinary, opCodeText]
  simp only [connRun, startRun, hrouter]
  simp [destroy, closing, newConn, CLOSED, OPEN]

/-- C4 witness: the amended statement at the concrete input 80 00. -/
theorem continuation_without_writer_unclean_witness :
    (connRun newConn [0x80, 0x00]).state = CLOSED ∧
    (connRun newConn [0x80, 0x00]).cleanly = false ∧
    (connRun newConn [0x80, 0x00]).tcpClosed = true ∧
    (connRun newConn [0x80, 0x00]).closeSent = false ∧
    (connRun newConn [0x80, 0x00]).sendQ = [] :=
  continuation_without_writer_unclean [0x80, 0x00] []
    ⟨true, 0, false, 0, none⟩ rfl rfl

/-- C5: the claim says every short payload source yields
UnexpectedEndOfStream.  The masked branch does (second conjunct), but in
the unmasked branch the io.CopyN error is overwritten by the final
`err = bw.Flush()`, so a 5-byte unmasked frame whose source holds only 3
bytes returns n=3 with a nil error. -/
theorem readPayloadTo_short_read :
    readPayloadTo ⟨⟨true, opCodeBinary, false, 5, none⟩, [1, 2, 3]⟩ =
      (3, [1, 2, 3], none) ∧
    readPayloadTo ⟨⟨true, opCodeBinary, true, 5, some [7, 7, 7, 7]⟩, [1, 2, 3]⟩ =
      (3, [], some .unexpectedEOF) :=
  ⟨rfl, rfl⟩

/-- C6: receiving the masked close frame 88 80 05 06 07 08 on a fresh
connection enqueues exactly the close frame with status 1000 and empty
reason, writes exactly 88 02 03 E8 to the socket, closes the send queue,
and closes the TCP connection, ending CLOSED and clean. -/
theorem client_close_echo :
    connRun newConn [0x88, 0x80, 0x05, 0x06, 0x07, 0x08] =
      ⟨false, none, CLOSED, true, true, true, true, true, 0,
       [⟨some ⟨true, opCodeConnectionClose, false, 2, none⟩, [0x03, 0xE8]⟩],
       true, true⟩ ∧
    connWrittenBytes (connRun newConn [0x88, 0x80, 0x05, 0x06, 0x07, 0x08]) =
      [0x88, 0x02, 0x03, 0xE8] :=
  ⟨rfl, rfl⟩

/-- C9: the two newFrameHeader implementations are not equivalent.  The
part_001 version tests `opCode & opCodeControlFrame != 1`, which holds for
every opcode (the masked value is 0 or 8, never 1), so it treats every
header as a control frame and rejects whenever fin is false or the
payload length exceeds 125; the frame-header-file version with `!= 0`
accepts such non-control data frames. -/
theorem newFrameHeader_versions_differ :
    (∀ op : Nat, op &&& opCodeControlFrame ≠ 1) ∧
    (∀ (fin : Bool) (op : Nat) (len : Int) (key : Option (List Nat)),
      fin = false ∨ len > 125 →
      newFrameHeaderV1 fin op len key = .error .malformedFrameHeader) ∧
    newFrameHeader false opCodeText 0 none =
      .ok ⟨false, opCodeText, false, 0, none⟩ ∧
    newFrameHeader true opCodeText 200 none =
      .ok ⟨true, opCodeText, false, 200, none⟩ := by
  have hand : ∀ op : Nat, op &&& opCodeControlFrame ≠ 1 := by
    intro op
    have h := Nat.and_two_pow op 3
    norm_num at h
    show op &&& 8 ≠ 1
    rw [h]
    rcases Bool.eq_false_or_eq_true (op.testBit 3) with hb | hb <;> simp [hb]
  refine ⟨hand, ?_, rfl, rfl⟩
  intro fin op len key hbad
  unfold newFrameHeaderV1
  by_cases hk : opCodeKnown op
  · have h1 : (op &&& opCodeControlFrame != 1) = true := by
      simpa using hand op
    have h2 : (!fin || decide (len > 125)) = true := by
      rcases hbad with hf | hl
      · simp [hf]
      · simp [hl]
    simp [hk, h1, h2]
  · simp [hk]

/-- C9 witness: the part_001 version rejects a non-final text frame of
length 0 that the frame-header-file version accepts. -/
theorem newFrameHeader_versions_differ_witness :
    newFrameHeaderV1 false opCodeText 0 none = .error .malformedFrameHeader ∧
    newFrameHeader false opCodeText 0 none =
      .ok ⟨false, opCodeText, false, 0, none⟩ :=
  ⟨newFrameHeader_versions_differ.2.1 false opCodeText 0 none (Or.inl rfl),
   newFrameHeader_versions_differ.2.2.1⟩

/-- C10: every request — whether or not the handshake validates — makes
ServeHTTP write the trailing CRLF, hijack and wrap the connection in a
new Conn in OPEN state, publish it on the Conns queue and start its
tasks; on validation failure the response is 400 with the
Sec-WebSocket-Version header. -/
theorem serveHTTP_always_starts_conn (r : Request) :
    ((serveHTTP r).crlfWritten = true ∧ (serveHTTP r).connCreated = true ∧
     (serveHTTP r).connPublished = true ∧ (serveHTTP r).connStarted = true ∧
     (serveHTTP r).conn = newConn ∧ (serveHTTP r).conn.state = OPEN) ∧
    ((wsClientHandshake r).isOk = false →
     (serveHTTP r).status = 400 ∧ (serveHTTP r).versionHeaderSet = true) := by
  unfold serveHTTP
  cases h : wsClientHandshake r <;> simp [Except.isOk, Except.toBool, newConn, OPEN]

/-- C10 witness: a request with empty headers fails validation, yet the
connection is still created, published and started in OPEN state. -/
theorem serveHTTP_always_starts_conn_witness :
    (serveHTTP ⟨1, 1, "", "", "", ""⟩).connCreated = true ∧
    (serveHTTP ⟨1, 1, "", "", "", ""⟩).conn.state = OPEN ∧
    (serveHTTP ⟨1, 1, "", "", "", ""⟩).status = 400 :=
  ⟨(serveHTTP_always_starts_conn ⟨1, 1, "", "", "", ""⟩).1.2.1,
   (serveHTTP_always_starts_conn ⟨1, 1, "", "", "", ""⟩).1.2.2.2.2.2,
   ((serveHTTP_always_starts_conn ⟨1, 1, "", "", "", ""⟩).2 (by decide)).1⟩

/-- C7: the claim says every Sec-WebSocket-Key that does not base64-decode
to exactly 16 bytes — in particular every invalid base64 string — is
rejected with HTTP 400.  The code discards the DecodeString error and only
tests the decoded length, so the invalid base64 string
AAAAAAAAAAAAAAAAAAAAAA==x (trailing garbage after the padding) decodes to
a 16-byte prefix with a CorruptInputError, passes validation, and an
otherwise well-formed upgrade request carrying it is answered 101, not
400. -/
theorem invalid_base64_key_accepted :
    b64DecodeGo "AAAAAAAAAAAAAAAAAAAAAA==x" = (List.replicate 16 0, false) ∧
    (validateSecWebSocketKey "AAAAAAAAAAAAAAAAAAAAAA==x").isOk = true ∧
    (serveHTTP ⟨1, 1, "websocket", "Upgrade", "13",
      "AAAAAAAAAAAAAAAAAAAAAA==x"⟩).status = 101 :=
  ⟨by decide, by decide, by decide⟩

/-- C8: every accepted key yields the token
base64(SHA1(key || 258EAFA5-E914-47DA-95CA-C5AB0DC85B11)), and the RFC
sample key dGhlIHNhbXBsZSBub25jZQ== yields s3pPLMBiTxaQ9kYGzzhZRbK+xOo=
with no error. -/
theorem accept_token_formula :
    (∀ key a : String, validateSecWebSocketKey key = .ok a →
      a = b64EncodeStr (sha1Bytes (strBytes key ++ strBytes guid))) ∧
    validateSecWebSocketKey "dGhlIHNhbXBsZSBub25jZQ==" =
      .ok "s3pPLMBiTxaQ9kYGzzhZRbK+xOo=" := by
  constructor
  · intro key a h
    unfold validateSecWebSocketKey at h
    dsimp only at h
    split at h
    · exact absurd h (by simp)
    · exact (Except.ok.inj h).symm
  · decide

/-- C8 witness: the formula instantiated at the sample key, discharged by
the concrete computation in the theorem itself. -/
theorem accept_token_formula_witness :
    "s3pPLMBiTxaQ9kYGzzhZRbK+xOo=" =
      b64EncodeStr (sha1Bytes
        (strBytes "dGhlIHNhbXBsZSBub25jZQ==" ++ strBytes guid)) :=
  accept_token_formula.1 "dGhlIHNhbXBsZSBub25jZQ==" _ accept_token_formula.2

end WS
